import Mathlib

/-!
Shallow embedding of `include/topologic/render.h` (the Topologic render
adapter layer).  The numeric template parameter `Q` is modelled as `ℚ`;
the shared global `topologic::state<Q,rd>` object is an explicit record
threaded through every operation; every observable effect of a call
(bytes inserted into the output sink, calls into the external libefgy
collaborators, mutations of the backend `prepared` flag) is recorded in
an explicit event trace, in the order the C++ statements perform them.
External libefgy serializers (the XML/JSON state dump, the SVG geometry
serialization, `ostream` formatting of `double` values) are parameters
of the embedding, collected in an `Ext` record.
-/

namespace Topologic

/-- A 4-channel colour of the shared state; channels live in `[0,1]`
(`efgy::colour::RGBA`, consumed by `render.h` via `.red`, `.green`,
`.blue`, `.alpha`). -/
structure Colour where
  red   : ℚ
  green : ℚ
  blue  : ℚ
  alpha : ℚ
deriving DecidableEq, Repr

/-- The OpenGL backend renderer sub-object of the shared state, as used by
`render.h`: the `prepared` cached-geometry flag plus the fields `opengl`
copies into it (`fractalFlameColouring`, `width`, `height`). -/
structure GLRenderer where
  prepared : Bool
  fractalFlameColouring : Bool
  width  : ℚ
  height : ℚ
deriving DecidableEq, Repr

/-- The shared global `topologic::state` object, restricted to the fields
`render.h` reads or writes: logical viewport `width`/`height`, the three
colour settings, the fractal-flame mode flag, the default geometry
parameter set (abstracted to a tag), and the OpenGL renderer sub-object.
The SVG renderer sub-object carries no state observed by this layer, so
its `frameStart`/`frameEnd` calls are recorded as bare trace events. -/
structure State where
  width  : ℚ
  height : ℚ
  background : Colour
  wireframe  : Colour
  surface    : Colour
  fractalFlameColouring : Bool
  parameter : ℕ
  opengl : GLRenderer
deriving DecidableEq, Repr

/-- One observable effect of a render-layer call, in program order:
sink insertions (`out` for a string, `outNum` for a `double`, and the
three external serializer insertions, each recording the state snapshot
it serializes), calls into the shared state and the two backend
renderers, the model's `calculateObject` geometry recompute, and writes
to the backend `prepared` flag. -/
inductive Ev where
  /-- The call `gState.updateMatrix()`, recording the viewport it reads. -/
  | updateMatrixCall (w h : ℚ)
  /-- The call `gState.svg.frameStart()`. -/
  | svgFrameStart
  /-- The call `gState.svg.frameEnd()`. -/
  | svgFrameEnd
  /-- The call `gState.opengl.frameStart()`. -/
  | glFrameStart
  /-- The call `gState.opengl.frameEnd()`. -/
  | glFrameEnd
  /-- The call `glClearColor(r, g, b, a)`. -/
  | glClearColor (r g b a : ℚ)
  /-- The call `gState.opengl.setColour(r, g, b, a, fg)`. -/
  | glSetColour (r g b a : ℚ) (fg : Bool)
  /-- The assignment `gState.opengl.prepared = b`. -/
  | setPrepared (b : Bool)
  /-- The call `object.calculateObject()`. -/
  | calculateObject
  /-- The insertion `std::cerr << gState.opengl << object`: geometry submitted to the
  3D backend for compilation. -/
  | submitGL
  /-- a `std::string` / string-literal insertion into the output sink -/
  | out (s : String)
  /-- a numeric (`double`) insertion into the output sink -/
  | outNum (q : ℚ)
  /-- The insertion `efgy::xml::tag() << gState`: XML dump of the shared state. -/
  | outStateXML (st : State)
  /-- The insertion `gState.svg << object`: SVG serialization of the geometry. -/
  | outGeomSVG (st : State)
  /-- The insertion `efgy::json::tag() << gState`: JSON dump of the shared state. -/
  | outStateJSON (st : State)
deriving DecidableEq, Repr

/-- The external libefgy collaborators the adapter delegates to, as
string-producing functions: the XML and JSON state serializers, the SVG
geometry serialization of the wrapped model instance, and the `ostream`
number formatting applied to `double` insertions. -/
structure Ext where
  xmlTag  : State → String
  jsonTag : State → String
  svgGeom : State → String
  fmt     : ℚ → String

/-- Whether an event inserts bytes into the output sink. -/
def Ev.isOut : Ev → Bool
  | .out _ | .outNum _ | .outStateXML _ | .outGeomSVG _ | .outStateJSON _ => true
  | _ => false

/-- Whether an event is the model geometry recompute `calculateObject()`. -/
def Ev.isCalc : Ev → Bool
  | .calculateObject => true
  | _ => false

/-- Whether an event is the geometry submission to the 3D backend. -/
def Ev.isSubmit : Ev → Bool
  | .submitGL => true
  | _ => false

/-- Whether an event clears the backend `prepared` flag. -/
def Ev.isInvalidate : Ev → Bool
  | .setPrepared false => true
  | _ => false

/-- The bytes an event contributes to the output sink. -/
def pieceOf (ext : Ext) : Ev → String
  | .out s => s
  | .outNum q => ext.fmt q
  | .outStateXML st => ext.xmlTag st
  | .outGeomSVG st => ext.svgGeom st
  | .outStateJSON st => ext.jsonTag st
  | _ => ""

/-- The bytes a trace writes to the output sink: the concatenation of the
contributions of its events, in order. -/
def bytesOf (ext : Ext) (evs : List Ev) : String :=
  evs.foldr (fun e acc => pieceOf ext e ++ acc) ""

/-- The static metadata a `wrapper<Q,d,T,rd,isVirtual,format>` derives
from its model type: `modelType::depth()`, `modelType::renderDepth()`,
`modelType::id()`, `modelType::formatID()`. -/
structure ModelInfo where
  depth : ℕ
  renderDepth : ℕ
  id : String
  formatID : String
deriving DecidableEq, Repr

/-- The method `wrapper::name`: builds `depth()-id()` through a `stringstream`
(`rv << depth() << "-" << id()`); an `unsigned int` inserts its decimal
representation. -/
def name (m : ModelInfo) : String :=
  (("" ++ Nat.repr m.depth) ++ "-") ++ m.id

/-- The method `wrapper::update`: sets `gState.opengl.prepared = false`, then calls
`object.calculateObject()`. -/
def update (st : State) : State × List Ev :=
  ({ st with opengl := { st.opengl with prepared := false } },
   [.setPrepared false, .calculateObject])

/-- The constructor `wrapper::wrapper(stateType &pState, const format &pFormat)`: builds
the model instance from `gState.parameter` (an external libefgy
constructor with no effects observed by this layer), then calls
`update()` in the constructor body. -/
def wrapperCtor (st : State) : State × List Ev :=
  update st

/-- The constructor `wrapper::wrapper(stateType &, const parameters<Q> &, const format &)`:
like `wrapperCtor`, but the model instance is built from the
caller-supplied parameter set instead of `gState.parameter`; the
constructor body again just calls `update()`. -/
def wrapperCtorParam (st : State) (_param : ℕ) : State × List Ev :=
  update st

/-- The array `topologic::cartesianDimensions`, the dimension-label string literal. -/
def cartesianDimensions : String :=
  "xyzwvutsrqponmlkjihgfedcbaZYXWVUTSRQPONMLKJIHGFEDCBA"

/-- The first sink insertion of `wrapper::svg`: the concatenated string
literals of the first `output <<` statement with `name()` spliced in
(`"<?xml ..." ... "<title>" + name() + "</title>" "<metadata ...>"`). -/
def svgHead (m : ModelInfo) : String :=
  "<?xml version=\x271.0\x27 encoding=\x27utf-8\x27?>" ++
  "<svg xmlns=\x27http://www.w3.org/2000/svg\x27" ++
  " xmlns:xlink=\x27http://www.w3.org/1999/xlink\x27" ++
  " version=\x271.1\x27 width=\x27100%\x27 height=\x27100%\x27 viewBox=\x27-1.2 -1.2 2.4 2.4\x27>" ++
  "<title>" ++ name m ++ "</title>" ++
  "<metadata xmlns:t=\x27http://ef.gy/2012/topologic\x27>"

/-- The insertions of the second `output <<` statement of `wrapper::svg`
(`</metadata>` plus the style block): adjacent C string literals fused,
each `double` insertion one `outNum` event.  The C++ computes
`double(channel) * 100.`; the numeric value is modelled exactly in `ℚ`.
Note the three `alpha` channels are inserted as-is, with no `* 100.` and
no following `%`. -/
def styleEvents (st : State) : List Ev :=
  [.out ("</metadata><style type=\x27text/css\x27>svg \x7b background: rgba("),
   .outNum (st.background.red * 100), .out ("%,"),
   .outNum (st.background.green * 100), .out ("%,"),
   .outNum (st.background.blue * 100), .out ("%,"),
   .outNum st.background.alpha,
   .out ("); \x7d path \x7b stroke-width: 0.002; stroke: rgba("),
   .outNum (st.wireframe.red * 100), .out ("%,"),
   .outNum (st.wireframe.green * 100), .out ("%,"),
   .outNum (st.wireframe.blue * 100), .out ("%,"),
   .outNum st.wireframe.alpha,
   .out ("); fill: rgba("),
   .outNum (st.surface.red * 100), .out ("%,"),
   .outNum (st.surface.green * 100), .out ("%,"),
   .outNum (st.surface.blue * 100), .out ("%,"),
   .outNum st.surface.alpha,
   .out ("); \x7d</style>")]

/-- The method `wrapper::svg(output, updateMatrix)`.  Returns the shared state after
the call, the trace of effects in program order, and the returned
boolean.  Transliterated statement by statement: the optional
`width = 3; height = 3; updateMatrix()` block, `svg.frameStart()`, the
head insertion, the XML state dump, the style block, the conditional
`output << gState.svg << object` guarded by `surface.alpha > Q(0.)`,
the closing `"</svg>\n"`, and `svg.frameEnd()`. -/
def svg (m : ModelInfo) (st : State) (updateMatrix : Bool) :
    State × List Ev × Bool :=
  let su :=
    if updateMatrix then
      let st' : State := { st with width := 3, height := 3 }
      (st', ([Ev.updateMatrixCall st'.width st'.height] : List Ev))
    else (st, ([] : List Ev))
  let st1 := su.1
  let evs := su.2 ++ [Ev.svgFrameStart, Ev.out (svgHead m), Ev.outStateXML st1]
    ++ styleEvents st1
    ++ (if 0 < st1.surface.alpha then [Ev.outGeomSVG st1] else [])
    ++ [Ev.out ("</svg>\n"), Ev.svgFrameEnd]
  (st1, evs, true)

/-- The method `wrapper::json(output)`: `output << "{" << efgy::json::tag() << gState;
output << "}"; return true;`. -/
def json (st : State) : State × List Ev × Bool :=
  (st, [Ev.out ("\x7b"), Ev.outStateJSON st, Ev.out ("\x7d")], true)

/-- The method `wrapper::opengl(updateMatrix)`.  Transliterated statement by
statement: optional `gState.updateMatrix()` (reading the real viewport,
no forced resize), copying `fractalFlameColouring`/`width`/`height` into
the backend renderer object, `glClearColor` on the background unless
fractal-flame colouring is active, `frameStart()`, the two `setColour`
calls (the fixed fractal-flame pair `0,0,0,0.5` / `0,0,0,0.8` or the
wireframe/surface colours), the geometry submission
`std::cerr << gState.opengl << object` guarded by `!prepared` (the
external backend compiles the geometry into its prepared representation,
setting `prepared`), and `frameEnd()`. -/
def opengl (st : State) (updateMatrix : Bool) : State × List Ev × Bool :=
  let ev0 : List Ev :=
    if updateMatrix then [.updateMatrixCall st.width st.height] else []
  let st1 : State := { st with opengl := { st.opengl with
      fractalFlameColouring := st.fractalFlameColouring,
      width := st.width, height := st.height } }
  let evClear : List Ev :=
    if !st.fractalFlameColouring then
      [.glClearColor st.background.red st.background.green
        st.background.blue st.background.alpha]
    else []
  let evColour : List Ev :=
    if st.fractalFlameColouring then
      [.glSetColour 0 0 0 (1/2) true, .glSetColour 0 0 0 (4/5) false]
    else
      [.glSetColour st.wireframe.red st.wireframe.green st.wireframe.blue
        st.wireframe.alpha true,
       .glSetColour st.surface.red st.surface.green st.surface.blue
        st.surface.alpha false]
  let ss :=
    if !st1.opengl.prepared then
      (({ st1 with opengl := { st1.opengl with prepared := true } } : State),
       ([Ev.submitGL] : List Ev))
    else (st1, ([] : List Ev))
  (ss.1, ev0 ++ evClear ++ [Ev.glFrameStart] ++ evColour ++ ss.2
    ++ [Ev.glFrameEnd], true)

/-- The numeric sink insertions of a trace, each paired with whether the
insertion is immediately followed by a literal `%` sign in the sink
(i.e. whether the code renders that number as a percentage). -/
def numPercentPairs : List Ev → List (ℚ × Bool)
  | [] => []
  | Ev.outNum q :: rest =>
      (q, match rest with
          | Ev.out s :: _ => s.data.head? == some ('%')
          | _ => false) :: numPercentPairs rest
  | _ :: rest => numPercentPairs rest

/-- Predicate: `x` occurs in the trace strictly before any insertion into the output
sink. -/
def beforeAnyOutput (x : Ev) (l : List Ev) : Prop :=
  ∀ pre e post, l = pre ++ e :: post → e.isOut = true → x ∈ pre

/-- The byte content of the style block of the emitted document, as a
function of the shared state and the external number formatting: CSS
deriving background / stroke / fill from the three colour settings.
Red, green and blue channels are multiplied by 100 and suffixed `%`; the
alpha channels are emitted as-is.  (Stated at the byte level; the
theorems prove it equal to what the `svg` trace writes.) -/
def styleBlockBytes (ext : Ext) (st : State) : String :=
  "<style type=\x27text/css\x27>svg \x7b background: rgba("
  ++ ext.fmt (st.background.red * 100) ++ "%,"
  ++ ext.fmt (st.background.green * 100) ++ "%,"
  ++ ext.fmt (st.background.blue * 100) ++ "%,"
  ++ ext.fmt st.background.alpha
  ++ "); \x7d path \x7b stroke-width: 0.002; stroke: rgba("
  ++ ext.fmt (st.wireframe.red * 100) ++ "%,"
  ++ ext.fmt (st.wireframe.green * 100) ++ "%,"
  ++ ext.fmt (st.wireframe.blue * 100) ++ "%,"
  ++ ext.fmt st.wireframe.alpha
  ++ "); fill: rgba("
  ++ ext.fmt (st.surface.red * 100) ++ "%,"
  ++ ext.fmt (st.surface.green * 100) ++ "%,"
  ++ ext.fmt (st.surface.blue * 100) ++ "%,"
  ++ ext.fmt st.surface.alpha
  ++ "); \x7d</style>"

/-- The twelve colour channels read by the style block, in emission
order: background, wireframe, surface, each as red, green, blue,
alpha. -/
def styleChannels (st : State) : List ℚ :=
  [st.background.red, st.background.green, st.background.blue,
   st.background.alpha,
   st.wireframe.red, st.wireframe.green, st.wireframe.blue,
   st.wireframe.alpha,
   st.surface.red, st.surface.green, st.surface.blue,
   st.surface.alpha]

/-- The claim's reading of the style block, following the spec's words
(refinement comparison definition): every channel of every colour, the
alpha/opacity channel included, is emitted scaled from its `[0,1]` value
to a 0-100 percentage. -/
def specAllChannelsPercent (m : ModelInfo) (st : State) (um : Bool) : Prop :=
  numPercentPairs (svg m st um).2.1 =
    (styleChannels st).map (fun c => (c * 100, true))

/-- A concrete model-metadata instance, a 4-cube, used for concrete
evaluations. -/
def m0 : ModelInfo :=
  { depth := 4, renderDepth := 4, id := "cube", formatID := "cartesian" }

/-- A concrete shared-state instance used for concrete evaluations. -/
def st0 : State :=
  { width := 1280, height := 720,
    background := ⟨1, 1, 1, 1⟩,
    wireframe := ⟨0, 0, 0, 1⟩,
    surface := ⟨0, 0, 0, 1⟩,
    fractalFlameColouring := false,
    parameter := 0,
    opengl := { prepared := true, fractalFlameColouring := false,
                width := 1280, height := 720 } }

/-- A concrete instantiation of the external serializers, used for
concrete evaluations. -/
def ext0 : Ext :=
  { xmlTag := fun _ => "<t:state/>",
    jsonTag := fun _ => "\x22state\x22:1",
    svgGeom := fun _ => "<path d=\x27M0 0\x27/>",
    fmt := fun q => toString q }

/- Helper lemmas about `String` concatenation. -/

theorem strAppendAssoc (a b c : String) : a ++ b ++ c = a ++ (b ++ c) := by
  apply String.ext
  simp [String.data_append]

theorem strAppendEmpty (a : String) : a ++ "" = a := by
  apply String.ext
  simp [String.data_append]

theorem strEmptyAppend (a : String) : "" ++ a = a := by
  apply String.ext
  simp [String.data_append]

/-- Distribution of `bytesOf` over trace concatenation. -/
theorem bytesOf_append (ext : Ext) (l1 l2 : List Ev) :
    bytesOf ext (l1 ++ l2) = bytesOf ext l1 ++ bytesOf ext l2 := by
  induction l1 with
  | nil => rw [List.nil_append]; exact (strEmptyAppend _).symm
  | cons a l ih =>
    show pieceOf ext a ++ bytesOf ext (l ++ l2) = _
    rw [ih, ← strAppendAssoc]
    rfl

/-- The fused C string literal closing the metadata block and opening the
style block splits at the element boundary. -/
theorem metaStyleSplit :
    String.data ("</metadata><style type=\x27text/css\x27>svg \x7b background: rgba(")
      = String.data ("</metadata>")
        ++ String.data ("<style type=\x27text/css\x27>svg \x7b background: rgba(") := by
  decide

/-- The closing literal splits into the `</svg>` tag and the trailing
newline. -/
theorem svgCloseSplit :
    String.data ("</svg>\n") = String.data ("</svg>") ++ String.data ("\n") := by
  decide

/-- The literal following each of the nine percent-scaled channel
insertions starts with a percent sign. -/
theorem pctCommaTrue :
    ((String.data ("%,")).head? == some ('%')) = true := by decide

/-- The literal following the background alpha insertion does not start
with a percent sign. -/
theorem pctAfterBgAlpha :
    ((String.data ("); \x7d path \x7b stroke-width: 0.002; stroke: rgba(")).head?
      == some ('%')) = false := by decide

/-- The literal following the wireframe alpha insertion does not start
with a percent sign. -/
theorem pctAfterWfAlpha :
    ((String.data ("); fill: rgba(")).head? == some ('%')) = false := by decide

/-- The literal following the surface alpha insertion does not start with
a percent sign. -/
theorem pctAfterSfAlpha :
    ((String.data ("); \x7d</style>")).head? == some ('%')) = false := by decide

/-- An event `x` that is not an output insertion and heads a trace occurs
before any output insertion of that trace. -/
theorem beforeAnyOutput_cons (x : Ev) (l : List Ev) (hx : x.isOut = false) :
    beforeAnyOutput x (x :: l) := by
  intro pre e post hdec hout
  cases pre with
  | nil =>
    rw [List.nil_append] at hdec
    injection hdec with h1 _
    rw [← h1, hx] at hout
    exact Bool.noConfusion hout
  | cons a pre' =>
    rw [List.cons_append] at hdec
    injection hdec with h1 _
    rw [h1]
    exact List.mem_cons_self _ _

/-- C8: the dimension-label table is exactly the 52-character ordered
sequence `x,y,z,w,v,...,b,a,Z,Y,...,B,A`; index 0 holds `x`, index 3
holds `w`, index 25 holds `a`, index 26 holds `Z`, and the length is
exactly 52. -/
theorem cartesianDimensions_spec :
    cartesianDimensions.data =
      ['x', 'y', 'z', 'w', 'v', 'u', 't', 's', 'r', 'q', 'p', 'o', 'n',
       'm', 'l', 'k', 'j', 'i', 'h', 'g', 'f', 'e', 'd', 'c', 'b', 'a',
       'Z', 'Y', 'X', 'W', 'V', 'U', 'T', 'S', 'R', 'Q', 'P', 'O', 'N',
       'M', 'L', 'K', 'J', 'I', 'H', 'G', 'F', 'E', 'D', 'C', 'B', 'A']
    ∧ cartesianDimensions.length = 52
    ∧ cartesianDimensions.data.get? 0 = some ('x')
    ∧ cartesianDimensions.data.get? 3 = some ('w')
    ∧ cartesianDimensions.data.get? 25 = some ('a')
    ∧ cartesianDimensions.data.get? 26 = some ('Z') := by
  decide

/-- C7: `name()` returns exactly the decimal representation of the
nominal depth, a hyphen, and the model's id string; it is a pure
function of those two fields alone (two metadata records agreeing on
`depth` and `id` yield the same name, whatever their other fields). -/
theorem name_is_depth_hyphen_id (m m' : ModelInfo)
    (hd : m.depth = m'.depth) (hi : m.id = m'.id) :
    name m = Nat.repr m.depth ++ "-" ++ m.id ∧ name m = name m' := by
  constructor
  · show (("" ++ Nat.repr m.depth) ++ "-") ++ m.id = _
    rw [strEmptyAppend]
  · show (("" ++ Nat.repr m.depth) ++ "-") ++ m.id = _
    rw [hd, hi]
    rfl

/-- Witness for C7 at concrete metadata records. -/
theorem name_is_depth_hyphen_id_witness :
    name m0 = Nat.repr (m0.depth) ++ "-" ++ m0.id
    ∧ name m0 = name ⟨4, 7, "cube", "polar"⟩ :=
  name_is_depth_hyphen_id m0 ⟨4, 7, "cube", "polar"⟩ (by decide) (by decide)

/-- C9: both constructor forms run `update()` before returning: by the
end of construction `calculateObject` has run exactly once and the
backend `prepared` flag is `false`; each `update()` call performs
exactly one `prepared`-flag invalidation and exactly one geometry
recompute, the invalidation strictly first (the trace is literally
`[setPrepared false, calculateObject]`). -/
theorem construction_and_update_protocol (st : State) (p : ℕ) :
    (wrapperCtor st).2 = [Ev.setPrepared false, Ev.calculateObject]
    ∧ (wrapperCtorParam st p).2 = [Ev.setPrepared false, Ev.calculateObject]
    ∧ (wrapperCtor st).2.countP (fun e => e.isCalc) = 1
    ∧ (wrapperCtor st).2.countP (fun e => e.isInvalidate) = 1
    ∧ (wrapperCtor st).1.opengl.prepared = false
    ∧ (wrapperCtorParam st p).1.opengl.prepared = false
    ∧ (update st).2 = [Ev.setPrepared false, Ev.calculateObject]
    ∧ (update st).2.countP (fun e => e.isCalc) = 1
    ∧ (update st).2.countP (fun e => e.isInvalidate) = 1
    ∧ (update st).1.opengl.prepared = false :=
  ⟨rfl, rfl, rfl, rfl, rfl, rfl, rfl, rfl, rfl, rfl⟩

/-- C10: `json(output)` writes exactly an opening brace, the JSON-tag
serialization of the shared state, and a closing brace; it leaves the
shared state unchanged and returns `true`. -/
theorem json_writes_tagged_state (ext : Ext) (st : State) :
    bytesOf ext (json st).2.1 = "\x7b" ++ ext.jsonTag st ++ "\x7d"
    ∧ (json st).1 = st
    ∧ (json st).2.2 = true := by
  refine ⟨?_, rfl, rfl⟩
  show "\x7b" ++ (ext.jsonTag st ++ ("\x7d" ++ "")) = _
  rw [strAppendEmpty, ← strAppendAssoc]

/-- C6: `opengl` submits the geometry to the 3D backend exactly when the
backend's `prepared` flag is `false` at the check (nothing before the
check alters it, so that is the flag's value at call time); when the
flag is `true` the call submits no geometry. -/
theorem opengl_submit_iff_not_prepared (st : State) (um : Bool) :
    (Ev.submitGL ∈ (opengl st um).2.1 ↔ st.opengl.prepared = false)
    ∧ (opengl st um).2.1.countP (fun e => e.isSubmit)
      = (if st.opengl.prepared then 0 else 1) := by
  cases hp : st.opengl.prepared <;>
    cases hf : st.fractalFlameColouring <;>
      cases um <;>
        simp [opengl, hp, hf, Ev.isSubmit, List.countP_append, List.countP_cons]

/-- Witness for C6 at a concrete prepared state. -/
theorem opengl_submit_iff_not_prepared_witness :
    (Ev.submitGL ∈ (opengl st0 false).2.1 ↔ st0.opengl.prepared = false)
    ∧ (opengl st0 false).2.1.countP (fun e => e.isSubmit)
      = (if st0.opengl.prepared then 0 else 1) :=
  opengl_submit_iff_not_prepared st0 false

/-- C1 counterexample: on a freshly constructed adapter (whose state the
claim calls `Dirty`), the first render call performs zero
`calculateObject` invocations — there is no dirty flag consulted by the
render paths, and the first render call of either kind does not
recompute the model's geometry, contradicting the claimed
`Dirty → Clean` recompute-on-first-render transition. -/
theorem first_render_no_recompute_cex :
    (svg m0 (wrapperCtor st0).1 false).2.1.countP (fun e => e.isCalc) = 0
    ∧ ¬ 0 < (svg m0 (wrapperCtor st0).1 false).2.1.countP (fun e => e.isCalc)
    ∧ (opengl (wrapperCtor st0).1 false).2.1.countP (fun e => e.isCalc) = 0 := by
  refine ⟨?_, ?_, ?_⟩ <;>
    norm_num [svg, opengl, wrapperCtor, update, st0, m0, styleEvents,
      Ev.isCalc, List.countP_append, List.countP_cons]

/-- C1 amended: render calls never recompute the model's derived
geometry and consult no adapter-level dirty flag (none exists); instead
both constructor forms recompute the geometry exactly once, during
construction, so no render call — first or subsequent, of either kind,
absent an external `update()` — triggers a geometry recompute. -/
theorem render_never_recomputes_geometry (m : ModelInfo) (st : State)
    (um : Bool) (p : ℕ) :
    (svg m st um).2.1.countP (fun e => e.isCalc) = 0
    ∧ (opengl st um).2.1.countP (fun e => e.isCalc) = 0
    ∧ (wrapperCtor st).2.countP (fun e => e.isCalc) = 1
    ∧ (wrapperCtorParam st p).2.countP (fun e => e.isCalc) = 1 := by
  refine ⟨?_, ?_, rfl, rfl⟩
  · cases um <;> by_cases hα : 0 < st.surface.alpha <;>
      simp [svg, styleEvents, hα, Ev.isCalc, List.countP_append,
        List.countP_cons]
  · cases um <;> cases hp : st.opengl.prepared <;>
      cases hf : st.fractalFlameColouring <;>
        simp [opengl, hp, hf, Ev.isCalc, List.countP_append,
          List.countP_cons]

set_option maxRecDepth 8192 in
/-- C2: every `svg` call writes to the sink exactly one complete XML
document: the XML declaration, the `<svg>` root with viewBox exactly
`-1.2 -1.2 2.4 2.4`, a `<title>` whose content is `name()`, a
`<metadata>` block holding the XML serialization of the full shared
state, the style block, the geometry exactly when the surface alpha is
positive, and the closing `</svg>` tag followed by a trailing newline;
the call returns `true`. -/
theorem svg_emits_complete_document (m : ModelInfo) (st : State)
    (um : Bool) (ext : Ext) :
    bytesOf ext (svg m st um).2.1 =
      "<?xml version=\x271.0\x27 encoding=\x27utf-8\x27?>"
      ++ ("<svg xmlns=\x27http://www.w3.org/2000/svg\x27"
          ++ " xmlns:xlink=\x27http://www.w3.org/1999/xlink\x27"
          ++ " version=\x271.1\x27 width=\x27100%\x27 height=\x27100%\x27"
          ++ " viewBox=\x27-1.2 -1.2 2.4 2.4\x27>")
      ++ ("<title>" ++ name m ++ "</title>")
      ++ ("<metadata xmlns:t=\x27http://ef.gy/2012/topologic\x27>"
          ++ ext.xmlTag (svg m st um).1 ++ "</metadata>")
      ++ styleBlockBytes ext (svg m st um).1
      ++ (if 0 < st.surface.alpha then ext.svgGeom (svg m st um).1 else "")
      ++ ("</svg>" ++ "\n")
    ∧ (svg m st um).2.2 = true := by
  refine ⟨?_, rfl⟩
  apply String.ext
  cases um <;> by_cases hα : 0 < st.surface.alpha <;>
    simp [svg, svgHead, styleEvents, styleBlockBytes, bytesOf, pieceOf,
      List.foldr_append, hα, String.data_append, metaStyleSplit,
      svgCloseSplit]

/-- C3: `svg(output, true)` forces the shared state's logical viewport to
width = height = 3 and recomputes the projection matrices (reading that
forced 3×3 viewport) strictly before any byte reaches the sink,
whatever the viewport held at call time; `svg(output, false)` leaves
width and height unchanged and never recomputes the matrices. -/
theorem svg_updateMatrix_viewport (m : ModelInfo) (st : State) :
    ((svg m st true).1.width = 3 ∧ (svg m st true).1.height = 3
      ∧ beforeAnyOutput (Ev.updateMatrixCall 3 3) (svg m st true).2.1)
    ∧ ((svg m st false).1.width = st.width
      ∧ (svg m st false).1.height = st.height
      ∧ ∀ w h, Ev.updateMatrixCall w h ∉ (svg m st false).2.1) := by
  refine ⟨⟨rfl, rfl, ?_⟩, rfl, rfl, ?_⟩
  · exact beforeAnyOutput_cons _ _ rfl
  · intro w h
    by_cases hα : 0 < st.surface.alpha <;> simp [svg, styleEvents, hα]

set_option maxRecDepth 8192 in
/-- C4: the `svg` document contains the drawn geometry — placed between
the style block and the closing `</svg>` tag — if and only if the
surface colour's alpha channel is positive at call time. -/
theorem svg_geometry_iff_surface_alpha (m : ModelInfo) (st : State)
    (um : Bool) (ext : Ext) :
    ((∃ s, Ev.outGeomSVG s ∈ (svg m st um).2.1) ↔ 0 < st.surface.alpha)
    ∧ bytesOf ext (svg m st um).2.1 =
        (svgHead m ++ ext.xmlTag (svg m st um).1 ++ "</metadata>")
        ++ styleBlockBytes ext (svg m st um).1
        ++ (if 0 < st.surface.alpha then ext.svgGeom (svg m st um).1 else "")
        ++ ("</svg>" ++ "\n") := by
  constructor
  · cases um <;> by_cases hα : 0 < st.surface.alpha <;>
      simp [svg, styleEvents, hα]
  · apply String.ext
    cases um <;> by_cases hα : 0 < st.surface.alpha <;>
      simp [svg, svgHead, styleEvents, styleBlockBytes, bytesOf, pieceOf,
        List.foldr_append, hα, String.data_append, metaStyleSplit,
        svgCloseSplit]

/-- The numeric insertions of any `svg` call, with their percent
markers: the nine red/green/blue channels scaled by 100 and marked as
percentages, the three alpha channels unscaled and unmarked. -/
theorem numPercentPairs_svg (m : ModelInfo) (st : State) (um : Bool) :
    numPercentPairs (svg m st um).2.1 =
      [(st.background.red * 100, true), (st.background.green * 100, true),
       (st.background.blue * 100, true), (st.background.alpha, false),
       (st.wireframe.red * 100, true), (st.wireframe.green * 100, true),
       (st.wireframe.blue * 100, true), (st.wireframe.alpha, false),
       (st.surface.red * 100, true), (st.surface.green * 100, true),
       (st.surface.blue * 100, true), (st.surface.alpha, false)] := by
  cases um <;> by_cases hα : 0 < st.surface.alpha <;>
    simp [svg, styleEvents, numPercentPairs, hα, pctCommaTrue,
      pctAfterBgAlpha, pctAfterWfAlpha, pctAfterSfAlpha]

/-- C5 counterexample: at a concrete state the style block's emitted
channel sequence is not "every channel scaled to a 0-100 percentage":
the alpha channels are inserted unscaled and without a percent sign. -/
theorem style_alpha_not_percent_scaled_cex :
    ¬ specAllChannelsPercent m0 st0 false := by
  unfold specAllChannelsPercent
  rw [numPercentPairs_svg]
  intro h
  simp [st0, styleChannels] at h

/-- C5 amended: the style block derives background, stroke and fill from
the shared state's background/wireframe/surface colours; the red, green
and blue channels are each scaled from `[0,1]` by 100 and rendered as
percentages, while the three alpha/opacity channels are emitted
unscaled, as plain `[0,1]` values without a percent sign. -/
theorem style_rgb_percent_alpha_raw (m : ModelInfo) (st : State)
    (um : Bool) :
    numPercentPairs (svg m st um).2.1 =
      [(st.background.red * 100, true), (st.background.green * 100, true),
       (st.background.blue * 100, true), (st.background.alpha, false),
       (st.wireframe.red * 100, true), (st.wireframe.green * 100, true),
       (st.wireframe.blue * 100, true), (st.wireframe.alpha, false),
       (st.surface.red * 100, true), (st.surface.green * 100, true),
       (st.surface.blue * 100, true), (st.surface.alpha, false)] :=
  numPercentPairs_svg m st um

end Topologic
